import Mathlib

/-!
Verification of the OceanGuard proximity-notification pipeline.

Shallow embedding of `oceanbackend/src/controllers/hazardController.ts`
together with the service modules it calls
(`services/emailService.ts`, `services/notificationService.ts`).

Coordinates are rationals.  External effects (MongoDB reads and writes,
SMTP, Twilio, reverse geocoding, the socket broadcast) are modelled by
oracles that say whether each attempt succeeds, and every function
additionally returns the list of network actions it attempted, so that
short-circuiting and isolation can be stated.
-/

namespace Ocean

/-- A latitude/longitude pair, the `{lat, lng}` objects of the source. -/
structure GeoPoint where
  lat : ℚ
  lng : ℚ
  deriving DecidableEq, Repr

/-- One row of the `EmailNotification` collection: the deduplication
ledger recording, per report, whether the authority e-mail attempt
succeeded (`reportId`, `type`, `location`, `emailSent`). -/
structure EmailNotification where
  reportId : Nat
  type : String
  location : GeoPoint
  emailSent : Bool
  deriving DecidableEq, Repr

/-- A `User` document as read by the dispatch code: the
`name email phone location` projection plus the `isActive` flag of the
schema.  The dispatch code guards on `user.email` and `user.phone`
being truthy, so both are kept optional here. -/
structure UserDoc where
  id : Nat
  name : String
  email : Option String
  phone : Option String
  location : Option GeoPoint
  isActive : Bool
  deriving DecidableEq, Repr

/-- JavaScript truthiness of an optional string (environment variable or
document field): `undefined` and the empty string are both falsy. -/
def present : Option String → Bool
  | none => false
  | some s => !(s == "")

/-- Environment configuration read by the two service modules. -/
structure Config where
  emailUser : Option String
  emailPassword : Option String
  oceanAuthorityEmail : Option String
  twilioAccountSid : Option String
  twilioAuthToken : Option String
  twilioWhatsAppNumber : Option String
  deriving Repr

/-- The module-level `twilioClient` is constructed only when both the
account SID and the auth token are set. -/
def twilioClientPresent (cfg : Config) : Bool :=
  present cfg.twilioAccountSid && present cfg.twilioAuthToken

/-- Network actions attempted against the external transports. -/
inductive NetAct where
  | geocode (p : GeoPoint)
  | smtpSend (dest : String)
  | twilioSend (dest : String)
  deriving DecidableEq, Repr

/-- Outcome oracle for the external transports: which attempt succeeds. -/
structure Transport where
  smtpOk : String → Bool
  twilioOk : String → Bool
  geocodeOk : GeoPoint → Bool

/-- The `HazardNotificationData` value handed to the fan-out.  The source
stores a GeoJSON `[lng, lat]` array and destructures it back to
`lat`/`lng` in each sender; the point is modelled directly. -/
structure HazardMsg where
  title : String
  description : String
  severity : String
  hazardType : String
  location : GeoPoint
  deriving Repr

/-- The `EmailNotificationData` payload of the authority e-mail. -/
structure AuthorityEmailData where
  type : String
  location : GeoPoint
  severity : Nat
  description : Option String
  reportedBy : String
  reportId : String
  deriving Repr

/-- Function `getAddressFromCoordinates`: one reverse-geocoding request
whose own `catch` falls back to a coordinate string, so the function is
total and always yields an address string. -/
def getAddressFromCoordinates (t : Transport) (p : GeoPoint) :
    List NetAct × String :=
  ([NetAct.geocode p],
    if t.geocodeOk p then ("display_name") else ("coordinate-fallback"))

/-- Call `transporter.sendMail`: one SMTP attempt that may reject. -/
def sendMailOp (t : Transport) (dest : String) :
    List NetAct × Except Unit Unit :=
  ([NetAct.smtpSend dest],
    if t.smtpOk dest then Except.ok () else Except.error ())

/-- Call `twilioClient.messages.create`: one Twilio attempt that may
reject. -/
def twilioCreateOp (t : Transport) (dest : String) :
    List NetAct × Except Unit Unit :=
  ([NetAct.twilioSend dest],
    if t.twilioOk dest then Except.ok () else Except.error ())

/-- Function `sendEmail` of `emailService`: short-circuits to `false`
when the SMTP credentials are missing, otherwise performs one send whose
rejection is caught and converted to `false`. -/
def sendEmail (cfg : Config) (t : Transport)
    (dest subject html : String) : List NetAct × Bool :=
  if !(present cfg.emailUser) || !(present cfg.emailPassword) then
    ([], false)
  else
    match sendMailOp t dest with
    | (acts, Except.ok _) => (acts, true)
    | (acts, Except.error _) => (acts, false)

/-- Function `sendHazardNotificationEmail` (the authority channel): a
missing `OCEAN_AUTHORITY_EMAIL`, then missing credentials, each
short-circuit to `false` before any transporter is created; otherwise
one SMTP attempt whose rejection is caught and converted to `false`. -/
def sendHazardNotificationEmail (cfg : Config) (t : Transport)
    (data : AuthorityEmailData) : List NetAct × Bool :=
  if !(present cfg.oceanAuthorityEmail) then ([], false)
  else if !(present cfg.emailUser) || !(present cfg.emailPassword) then
    ([], false)
  else
    match sendMailOp t (cfg.oceanAuthorityEmail.getD ("")) with
    | (acts, Except.ok _) => (acts, true)
    | (acts, Except.error _) => (acts, false)

/-- Function `sendHazardEmailNotification` (per-recipient e-mail):
geocodes for the message body, then calls `sendEmail`; its own `catch`
makes it total and it returns no value, so only the attempted network
actions are observable. -/
def sendHazardEmailNotification (cfg : Config) (t : Transport)
    (userEmail userName : String) (hz : HazardMsg) : List NetAct :=
  let addr := getAddressFromCoordinates t hz.location
  let sent := sendEmail cfg t userEmail ("alert-subject") ("alert-html")
  addr.1 ++ sent.1

/-- WhatsApp phone formatting of the source: the number must start with
a plus sign. -/
def formatWhatsAppPhone (phone : String) : String :=
  if phone.startsWith ("+") then phone else "+" ++ phone

/-- Function `sendHazardWhatsAppNotification`: returns without any
network action when the Twilio client or the WhatsApp number is not
configured; otherwise geocodes and performs one Twilio attempt whose
rejection is caught. -/
def sendHazardWhatsAppNotification (cfg : Config) (t : Transport)
    (userPhone userName : String) (hz : HazardMsg) : List NetAct :=
  if !(twilioClientPresent cfg) then []
  else if !(present cfg.twilioWhatsAppNumber) then []
  else
    let addr := getAddressFromCoordinates t hz.location
    let msg := twilioCreateOp t ("whatsapp:" ++ formatWhatsAppPhone userPhone)
    addr.1 ++ msg.1

/-- Distance of a user from the query center, for users that carry a
location (the geospatial query only ever compares located users). -/
def userDist (dist : GeoPoint → GeoPoint → ℚ) (center : GeoPoint)
    (u : UserDoc) : ℚ :=
  match u.location with
  | some l => dist l center
  | none => 0

/-- The `$near` / `$maxDistance` filter: the user has a stored location
and it lies within the radius (inclusive). -/
def hasLocationWithin (dist : GeoPoint → GeoPoint → ℚ) (center : GeoPoint)
    (radius : ℚ) (u : UserDoc) : Bool :=
  match u.location with
  | some l => decide (dist l center ≤ radius)
  | none => false

/-- Ascending-distance order in which a `$near` query returns its
results. -/
def distLe (dist : GeoPoint → GeoPoint → ℚ) (center : GeoPoint)
    (a b : UserDoc) : Prop :=
  userDist dist center a ≤ userDist dist center b

instance {dist : GeoPoint → GeoPoint → ℚ} {center : GeoPoint} :
    DecidableRel (distLe dist center) :=
  fun a b =>
    inferInstanceAs (Decidable (userDist dist center a ≤ userDist dist center b))

instance {dist : GeoPoint → GeoPoint → ℚ} {center : GeoPoint} :
    IsTotal UserDoc (distLe dist center) :=
  ⟨fun a b => le_total (userDist dist center a) (userDist dist center b)⟩

instance {dist : GeoPoint → GeoPoint → ℚ} {center : GeoPoint} :
    IsTrans UserDoc (distLe dist center) :=
  ⟨fun _ _ _ hab hbc => le_trans hab hbc⟩

/-- Function `findNearbyUsers`: a 2dsphere `$near` query with
`$maxDistance` — documents lacking an indexed location are never
returned, results come back ordered by distance ascending, ties keep the
store order (modelled by a stable sort) — with the surrounding `catch`
returning the empty list on a query failure.  `geoOk` is the oracle for
the query succeeding and `dist` abstracts the geodesic metric computed
by the store. -/
def findNearbyUsers (geoOk : Bool) (dist : GeoPoint → GeoPoint → ℚ)
    (users : List UserDoc) (center : GeoPoint) (radius : ℚ) : List UserDoc :=
  if geoOk then
    List.insertionSort (distLe dist center)
      (users.filter (hasLocationWithin dist center radius))
  else
    []

/-- Result object of `notifyNearbyUsers`:
`{success, notifiedCount, users}` plus the attempted network actions. -/
structure FanoutResult where
  success : Bool
  notifiedCount : Nat
  usersNotified : List (String × Option String)
  acts : List NetAct
  deriving Repr

/-- Function `notifyNearbyUsers`: geospatial lookup, then for every user
found an e-mail attempt when the user has an e-mail address and a
WhatsApp attempt when the user has a phone number.  Both senders catch
internally and `findNearbyUsers` catches its own query failure, so the
surrounding `catch` of the source (which would report `success: false`)
is unreachable and the outcome always reports `success: true` with
`notifiedCount = nearbyUsers.length`. -/
def notifyNearbyUsers (cfg : Config) (t : Transport) (geoOk : Bool)
    (dist : GeoPoint → GeoPoint → ℚ) (users : List UserDoc)
    (hz : HazardMsg) (radius : ℚ) : FanoutResult :=
  let nearby := findNearbyUsers geoOk dist users hz.location radius
  let acts := nearby.flatMap fun u =>
    (if present u.email then
       sendHazardEmailNotification cfg t (u.email.getD ("")) u.name hz
     else []) ++
    (if present u.phone then
       sendHazardWhatsAppNotification cfg t (u.phone.getD ("")) u.name hz
     else [])
  { success := true
    notifiedCount := nearby.length
    usersNotified := nearby.map fun u => (u.name, u.email)
    acts := acts }

/-- Network actions one recipient gives rise to, as a function of the
configuration and the recipient alone.  Derived characterization used to
show the attempts are independent of transport failures. -/
def recipientActs (cfg : Config) (hz : HazardMsg) (u : UserDoc) : List NetAct :=
  (if present u.email then
     NetAct.geocode hz.location ::
       (if present cfg.emailUser && present cfg.emailPassword then
          [NetAct.smtpSend (u.email.getD (""))]
        else [])
   else []) ++
  (if present u.phone then
     (if twilioClientPresent cfg && present cfg.twilioWhatsAppNumber then
        [NetAct.geocode hz.location,
         NetAct.twilioSend ("whatsapp:" ++ formatWhatsAppPhone (u.phone.getD ("")))]
      else [])
   else [])

/-- Modelled from the spec: the ordering the specification asserts for
`findWithinRadius` results — distance ascending with ties broken by the
recipient identifier.  The source contains no identifier tie-break; this
relation exists only to compare the implementation against the spec. -/
def specDistIdOrder (dist : GeoPoint → GeoPoint → ℚ) (center : GeoPoint)
    (a b : UserDoc) : Prop :=
  userDist dist center a < userDist dist center b ∨
    (userDist dist center a = userDist dist center b ∧ a.id ≤ b.id)

instance {dist : GeoPoint → GeoPoint → ℚ} {center : GeoPoint} :
    DecidableRel (specDistIdOrder dist center) :=
  fun a b =>
    inferInstanceAs
      (Decidable (userDist dist center a < userDist dist center b ∨
        (userDist dist center a = userDist dist center b ∧ a.id ≤ b.id)))

/-- The dedup query of `createHazardReport`: `EmailNotification.findOne`
with the same `type`, a latitude in `[lat - 0.1, lat + 0.1]`, a longitude
in `[lng - 0.1, lng + 0.1]`, and `emailSent: true`. -/
def matchesDedupQuery (kind : String) (loc : GeoPoint)
    (r : EmailNotification) : Bool :=
  r.type == kind &&
  decide (loc.lat - 1/10 ≤ r.location.lat) &&
  decide (r.location.lat ≤ loc.lat + 1/10) &&
  decide (loc.lng - 1/10 ≤ r.location.lng) &&
  decide (r.location.lng ≤ loc.lng + 1/10) &&
  r.emailSent

/-- The `findOne` call on the deduplication ledger (a Mongo `findOne`
returns some matching row, if any exists). -/
def findExistingNotification (ledger : List EmailNotification)
    (kind : String) (loc : GeoPoint) : Option EmailNotification :=
  ledger.find? (matchesDedupQuery kind loc)

/-- Operation `shouldNotifyAuthority` of the spec: the controller sends
the authority e-mail exactly when the dedup `findOne` returns nothing. -/
def shouldNotifyAuthority (ledger : List EmailNotification) (kind : String)
    (loc : GeoPoint) : Bool :=
  (findExistingNotification ledger kind loc).isNone

/-- Operation `recordAttempt`: `EmailNotification.create` appends one
ledger row and never mutates or deletes existing rows. -/
def recordAttempt (ledger : List EmailNotification) (reportId : Nat)
    (kind : String) (loc : GeoPoint) (sent : Bool) : List EmailNotification :=
  ledger ++ [⟨reportId, kind, loc, sent⟩]

/-- Steps of `createHazardReport` that are visible in its trace. -/
inductive Action where
  | persist
  | dedupRead
  | authorityEmail
  | dedupWrite
  | newsCreate
  | broadcast
  | fanout
  deriving DecidableEq, Repr

/-- Failure oracle for the awaited operations of `createHazardReport`.
`authorityEmailSends` is the boolean result of the internally caught
authority e-mail; every other flag says whether the corresponding
operation throws or rejects. -/
structure ControllerEnv where
  persistOk : Bool
  dedupReadOk : Bool
  authorityEmailSends : Bool
  dedupWriteOk : Bool
  newsOk : Bool
  broadcastOk : Bool
  fanoutThrows : Bool
  deriving Repr

/-- Tail of `createHazardReport` after the dedup branch: news-article
creation inside its own `try/catch` (absorbed either way), the socket
broadcast (not guarded, so a throw reaches the outer `catch` and the
response becomes 500), the nearby-user fan-out inside its own
`try/catch` (absorbed either way), then the 201 response. -/
def finishReport (env : ControllerEnv) (tr : List Action)
    (ledger : List EmailNotification) :
    List Action × Nat × List EmailNotification :=
  let tr := tr ++ [Action.newsCreate]
  let tr := if env.newsOk then tr else tr
  if !env.broadcastOk then
    (tr ++ [Action.broadcast], 500, ledger)
  else
    let tr := tr ++ [Action.broadcast, Action.fanout]
    if env.fanoutThrows then (tr, 201, ledger) else (tr, 201, ledger)

/-- Function `createHazardReport` after input validation: persist the
report, read the dedup ledger (`findOne`), on a miss attempt the
authority e-mail (internally caught, result a boolean) and append the
ledger row recording that result, then `finishReport`.  Every `await`
that is not inside an inner `try` rejects into the outer `catch`, which
responds 500 — including the ledger read and write, even though the
report was already persisted.  Returns (trace, HTTP status, ledger). -/
def createHazardReport (env : ControllerEnv)
    (ledger : List EmailNotification) (kind : String) (loc : GeoPoint)
    (reportId : Nat) : List Action × Nat × List EmailNotification :=
  if !env.persistOk then ([Action.persist], 500, ledger)
  else if !env.dedupReadOk then
    ([Action.persist, Action.dedupRead], 500, ledger)
  else
    match findExistingNotification ledger kind loc with
    | some _ =>
        finishReport env [Action.persist, Action.dedupRead] ledger
    | none =>
        let sent := env.authorityEmailSends
        if !env.dedupWriteOk then
          ([Action.persist, Action.dedupRead, Action.authorityEmail,
            Action.dedupWrite], 500, ledger)
        else
          finishReport env
            [Action.persist, Action.dedupRead, Action.authorityEmail,
              Action.dedupWrite]
            (recordAttempt ledger reportId kind loc sent)

/-! Concrete inputs used by witnesses and counterexamples. -/

/-- Environment in which every awaited operation succeeds. -/
def envAllOk : ControllerEnv :=
  ⟨true, true, true, true, true, true, false⟩

/-- Environment in which the report persists but the dedup-ledger read
rejects. -/
def envReadFail : ControllerEnv :=
  ⟨true, false, true, true, true, true, false⟩

/-- Concrete distance oracle that declares every pair of points to be at
distance 5. -/
def distFive : GeoPoint → GeoPoint → ℚ := fun _ _ => 5

/-- Query center used in concrete runs. -/
def center0 : GeoPoint := ⟨10, 20⟩

/-- Located user with identifier 2, listed first in the store. -/
def userTieB : UserDoc :=
  ⟨2, "b", none, none, some ⟨11, 20⟩, true⟩

/-- Located user with identifier 1, listed second in the store. -/
def userTieA : UserDoc :=
  ⟨1, "a", none, none, some ⟨10, 21⟩, true⟩

/-- Deactivated user with both contact channels and a stored location. -/
def userInactive : UserDoc :=
  ⟨7, "carol", some "carol@example.com", some "+15550100", some ⟨10, 20⟩, false⟩

/-- Fully populated configuration. -/
def cfgFull : Config :=
  ⟨some "ops@example.com", some "secret", some "authority@example.com",
    some "sid", some "token", some "whatsapp:+14155238886"⟩

/-- Entirely absent configuration. -/
def cfgEmpty : Config :=
  ⟨none, none, none, none, none, none⟩

/-- Transport oracle in which every attempt succeeds. -/
def transportAllOk : Transport :=
  ⟨fun _ => true, fun _ => true, fun _ => true⟩

/-- Transport oracle in which every SMTP attempt fails. -/
def transportMailFails : Transport :=
  ⟨fun _ => false, fun _ => true, fun _ => true⟩

/-- Concrete hazard payload located at `center0`. -/
def hz0 : HazardMsg :=
  ⟨"Oil Spill Reported Nearby", "desc", "9", "Oil Spill", center0⟩

/-- Ledger holding one successful authority notification for an oil
spill at `center0`. -/
def ledgerHit : List EmailNotification :=
  [⟨1, "Oil Spill", center0, true⟩]

/-- Concrete authority e-mail payload. -/
def authData0 : AuthorityEmailData :=
  ⟨"Oil Spill", center0, 9, none, "alice", "r1"⟩

/-! Theorems. -/

/-- Characterization of one ledger row matching the dedup `findOne`
query: same kind, both coordinates within 0.1 degrees (inclusive), and
a recorded successful attempt. -/
theorem matchesDedupQuery_eq_true_iff (kind : String) (loc : GeoPoint)
    (r : EmailNotification) :
    matchesDedupQuery kind loc r = true ↔
      r.type = kind ∧ |r.location.lat - loc.lat| ≤ 1/10 ∧
        |r.location.lng - loc.lng| ≤ 1/10 ∧ r.emailSent = true := by
  simp only [matchesDedupQuery, Bool.and_eq_true, decide_eq_true_eq,
    beq_iff_eq, and_assoc, abs_sub_le_iff]
  constructor
  · rintro ⟨h1, h2, h3, h4, h5, h6⟩
    exact ⟨h1, by linarith, by linarith, by linarith, by linarith, h6⟩
  · rintro ⟨h1, h2, h3, h4, h5, h6⟩
    exact ⟨h1, by linarith, by linarith, by linarith, by linarith, h6⟩

/-- C2: the authority-notification suppression check returns false
(suppress) iff some previously recorded ledger row has the same hazard
kind, a stored location within 0.1 degrees of the new location in
latitude and in longitude, and a successful authority-email attempt;
it returns true in every other case, including when all prior attempts
in that box failed. -/
theorem shouldNotifyAuthority_false_iff (ledger : List EmailNotification)
    (kind : String) (loc : GeoPoint) :
    shouldNotifyAuthority ledger kind loc = false ↔
      ∃ r ∈ ledger, r.type = kind ∧
        |r.location.lat - loc.lat| ≤ 1/10 ∧
        |r.location.lng - loc.lng| ≤ 1/10 ∧ r.emailSent = true := by
  constructor
  · intro h
    cases hf : ledger.find? (matchesDedupQuery kind loc) with
    | none =>
        exfalso
        simp [shouldNotifyAuthority, findExistingNotification, hf] at h
    | some r =>
        exact ⟨r, List.mem_of_find?_eq_some hf,
          (matchesDedupQuery_eq_true_iff kind loc r).mp (List.find?_some hf)⟩
  · rintro ⟨r, hmem, hr⟩
    simp only [shouldNotifyAuthority, findExistingNotification]
    cases hf : ledger.find? (matchesDedupQuery kind loc) with
    | none =>
        rw [List.find?_eq_none] at hf
        exact absurd ((matchesDedupQuery_eq_true_iff kind loc r).mpr hr)
          (by simpa using hf r hmem)
    | some _ => rfl

/-- C9: the fan-out always resolves to an outcome with `success = true`
and with `notifiedCount` equal to the number of users returned by the
geospatial query; in particular, with zero nearby recipients it returns
`notifiedCount = 0` and no error. -/
theorem notifyNearbyUsers_outcome (cfg : Config) (t : Transport)
    (geoOk : Bool) (dist : GeoPoint → GeoPoint → ℚ) (users : List UserDoc)
    (hz : HazardMsg) (radius : ℚ) :
    (notifyNearbyUsers cfg t geoOk dist users hz radius).success = true ∧
    (notifyNearbyUsers cfg t geoOk dist users hz radius).notifiedCount =
      (findNearbyUsers geoOk dist users hz.location radius).length :=
  ⟨rfl, rfl⟩

/-- C1 (amended): the response of `createHazardReport` is the 201
success response exactly when the persist, the dedup-ledger read, the
broadcast emit and — on the notify branch — the dedup-ledger write all
succeed.  The authority-email result, a news-article failure and a
fan-out failure never change the response, but a dedup-ledger
read/write failure or a broadcast failure turns the response of an
already persisted report into a 500 error. -/
theorem createHazardReport_status_iff (env : ControllerEnv)
    (ledger : List EmailNotification) (kind : String) (loc : GeoPoint)
    (reportId : Nat) :
    (createHazardReport env ledger kind loc reportId).2.1 = 201 ↔
      env.persistOk = true ∧ env.dedupReadOk = true ∧
      env.broadcastOk = true ∧
      ((findExistingNotification ledger kind loc).isSome = true ∨
        env.dedupWriteOk = true) := by
  cases env with
  | mk p d a w n b f =>
      cases hx : findExistingNotification ledger kind loc <;>
        cases p <;> cases d <;> cases w <;> cases b <;> cases n <;> cases f <;>
          simp [createHazardReport, finishReport, hx]

/-- C1 is false as stated: a persisted report whose dedup-ledger read
rejects gets a 500 response, so a dispatch-side failure does change the
success response. -/
theorem persistedReport_response_changed :
    envReadFail.persistOk = true ∧
    (createHazardReport envReadFail [] ("Oil Spill") center0 1).2.1 = 500 := by
  decide

/-- C3 (amended): a geospatial-query failure degrades to zero
recipients, but a dedup-ledger read failure is not absorbed: the
request fails with status 500 and no authority-email attempt is made,
instead of defaulting to notify. -/
theorem lookupFailure_degradation :
    (∀ (dist : GeoPoint → GeoPoint → ℚ) (users : List UserDoc)
        (center : GeoPoint) (radius : ℚ),
        findNearbyUsers false dist users center radius = []) ∧
    (∀ (env : ControllerEnv) (ledger : List EmailNotification)
        (kind : String) (loc : GeoPoint) (reportId : Nat),
        env.dedupReadOk = false →
        (createHazardReport env ledger kind loc reportId).2.1 = 500 ∧
        Action.authorityEmail ∉
          (createHazardReport env ledger kind loc reportId).1) := by
  refine ⟨fun dist users center radius => rfl, ?_⟩
  intro env ledger kind loc reportId h
  cases hp : env.persistOk <;> simp [createHazardReport, hp, h]

/-- Witness for the amended C3 at concrete inputs. -/
theorem lookupFailure_degradation_witness :
    findNearbyUsers false distFive [userInactive] center0 10 = [] ∧
    ((createHazardReport envReadFail [] ("Oil Spill") center0 1).2.1 = 500 ∧
      Action.authorityEmail ∉
        (createHazardReport envReadFail [] ("Oil Spill") center0 1).1) :=
  ⟨lookupFailure_degradation.1 distFive [userInactive] center0 10,
    lookupFailure_degradation.2 envReadFail [] ("Oil Spill") center0 1 rfl⟩

/-- C3 is false as stated for the ledger half: when the dedup-ledger
read rejects, the code makes no authority-email attempt and fails the
request, instead of defaulting to "do notify". -/
theorem ledgerReadFailure_no_default_notify :
    Action.authorityEmail ∉
      (createHazardReport envReadFail [] ("Oil Spill") center0 1).1 ∧
    (createHazardReport envReadFail [] ("Oil Spill") center0 1).2.1 ≠ 201 := by
  decide

/-- Evaluation of the dedup check on the concrete suppressing ledger:
a successful prior record at the same kind and location suppresses. -/
theorem shouldNotify_ledgerHit_false :
    shouldNotifyAuthority ledgerHit ("Oil Spill") center0 = false := by
  have hm : matchesDedupQuery ("Oil Spill") center0 ⟨1, "Oil Spill", center0, true⟩ = true := by
    simp [matchesDedupQuery, center0]
  unfold shouldNotifyAuthority findExistingNotification ledgerHit
  rw [List.find?_cons_of_pos _ hm]
  rfl

/-- C4: the dedup ledger gates only the authority-email channel: on a
run in which the awaited operations succeed, the nearby-user fan-out
executes for every ledger state, and in particular it still executes
when the suppression check decided to skip the authority e-mail. -/
theorem fanout_runs_regardless_of_suppression (env : ControllerEnv)
    (ledger : List EmailNotification) (kind : String) (loc : GeoPoint)
    (reportId : Nat) (hp : env.persistOk = true)
    (hd : env.dedupReadOk = true) (hw : env.dedupWriteOk = true)
    (hb : env.broadcastOk = true) :
    Action.fanout ∈ (createHazardReport env ledger kind loc reportId).1 ∧
    (shouldNotifyAuthority ledger kind loc = false →
      Action.authorityEmail ∉
        (createHazardReport env ledger kind loc reportId).1 ∧
      Action.fanout ∈ (createHazardReport env ledger kind loc reportId).1) := by
  cases hx : findExistingNotification ledger kind loc with
  | some r =>
      have htr : (createHazardReport env ledger kind loc reportId).1 =
          [Action.persist, Action.dedupRead, Action.newsCreate,
            Action.broadcast, Action.fanout] := by
        simp [createHazardReport, finishReport, hp, hd, hb, hx]
      rw [htr]
      exact ⟨by decide, fun _ => ⟨by decide, by decide⟩⟩
  | none =>
      have htr : (createHazardReport env ledger kind loc reportId).1 =
          [Action.persist, Action.dedupRead, Action.authorityEmail,
            Action.dedupWrite, Action.newsCreate, Action.broadcast,
            Action.fanout] := by
        simp [createHazardReport, finishReport, hp, hd, hw, hb, hx]
      rw [htr]
      refine ⟨by decide, fun hs => absurd hs ?_⟩
      simp [shouldNotifyAuthority, hx]

/-- Witness for C4: with a suppressing ledger the authority e-mail is
skipped while the fan-out still executes. -/
theorem fanout_runs_regardless_of_suppression_witness :
    Action.fanout ∈
      (createHazardReport envAllOk ledgerHit ("Oil Spill") center0 2).1 ∧
    (Action.authorityEmail ∉
        (createHazardReport envAllOk ledgerHit ("Oil Spill") center0 2).1 ∧
      Action.fanout ∈
        (createHazardReport envAllOk ledgerHit ("Oil Spill") center0 2).1) :=
  ⟨(fanout_runs_regardless_of_suppression envAllOk ledgerHit ("Oil Spill")
      center0 2 rfl rfl rfl rfl).1,
    (fanout_runs_regardless_of_suppression envAllOk ledgerHit ("Oil Spill")
      center0 2 rfl rfl rfl rfl).2 shouldNotify_ledgerHit_false⟩

/-- C6 is false as stated: on a fully successful run the broadcast is
emitted after the dedup check and after the authority-email attempt,
not before them. -/
theorem broadcast_not_emitted_first :
    Action.broadcast ∈
      (createHazardReport envAllOk [] ("Oil Spill") center0 1).1 ∧
    Action.dedupRead ∈
      (createHazardReport envAllOk [] ("Oil Spill") center0 1).1 ∧
    Action.authorityEmail ∈
      (createHazardReport envAllOk [] ("Oil Spill") center0 1).1 ∧
    ¬((createHazardReport envAllOk [] ("Oil Spill") center0 1).1.indexOf
        Action.broadcast <
      (createHazardReport envAllOk [] ("Oil Spill") center0 1).1.indexOf
        Action.dedupRead) ∧
    ¬((createHazardReport envAllOk [] ("Oil Spill") center0 1).1.indexOf
        Action.broadcast <
      (createHazardReport envAllOk [] ("Oil Spill") center0 1).1.indexOf
        Action.authorityEmail) := by
  decide

/-- C6 (amended): on a successful run the broadcast fires after the
dedup check (and after the authority-email attempt when one is made)
and before the nearby-user fan-out. -/
theorem broadcast_after_gating_before_fanout (env : ControllerEnv)
    (ledger : List EmailNotification) (kind : String) (loc : GeoPoint)
    (reportId : Nat) (hp : env.persistOk = true)
    (hd : env.dedupReadOk = true) (hw : env.dedupWriteOk = true)
    (hb : env.broadcastOk = true) :
    ((createHazardReport env ledger kind loc reportId).1.indexOf
        Action.dedupRead <
      (createHazardReport env ledger kind loc reportId).1.indexOf
        Action.broadcast) ∧
    ((createHazardReport env ledger kind loc reportId).1.indexOf
        Action.broadcast <
      (createHazardReport env ledger kind loc reportId).1.indexOf
        Action.fanout) ∧
    (shouldNotifyAuthority ledger kind loc = true →
      (createHazardReport env ledger kind loc reportId).1.indexOf
          Action.authorityEmail <
        (createHazardReport env ledger kind loc reportId).1.indexOf
          Action.broadcast) := by
  cases hx : findExistingNotification ledger kind loc with
  | some r =>
      have htr : (createHazardReport env ledger kind loc reportId).1 =
          [Action.persist, Action.dedupRead, Action.newsCreate,
            Action.broadcast, Action.fanout] := by
        simp [createHazardReport, finishReport, hp, hd, hb, hx]
      rw [htr]
      exact ⟨by decide, by decide,
        fun hs => absurd hs (by simp [shouldNotifyAuthority, hx])⟩
  | none =>
      have htr : (createHazardReport env ledger kind loc reportId).1 =
          [Action.persist, Action.dedupRead, Action.authorityEmail,
            Action.dedupWrite, Action.newsCreate, Action.broadcast,
            Action.fanout] := by
        simp [createHazardReport, finishReport, hp, hd, hw, hb, hx]
      rw [htr]
      exact ⟨by decide, by decide, fun _ => by decide⟩

/-- Witness for the amended C6 at concrete inputs. -/
theorem broadcast_after_gating_before_fanout_witness :
    ((createHazardReport envAllOk [] ("Oil Spill") center0 1).1.indexOf
        Action.dedupRead <
      (createHazardReport envAllOk [] ("Oil Spill") center0 1).1.indexOf
        Action.broadcast) ∧
    ((createHazardReport envAllOk [] ("Oil Spill") center0 1).1.indexOf
        Action.broadcast <
      (createHazardReport envAllOk [] ("Oil Spill") center0 1).1.indexOf
        Action.fanout) ∧
    (shouldNotifyAuthority [] ("Oil Spill") center0 = true →
      (createHazardReport envAllOk [] ("Oil Spill") center0 1).1.indexOf
          Action.authorityEmail <
        (createHazardReport envAllOk [] ("Oil Spill") center0 1).1.indexOf
          Action.broadcast) :=
  broadcast_after_gating_before_fanout envAllOk [] ("Oil Spill") center0 1
    rfl rfl rfl rfl

/-- Membership in a successful geospatial query: exactly the users with
a stored location within the radius. -/
theorem mem_findNearbyUsers (dist : GeoPoint → GeoPoint → ℚ)
    (users : List UserDoc) (center : GeoPoint) (radius : ℚ) (u : UserDoc) :
    u ∈ findNearbyUsers true dist users center radius ↔
      u ∈ users ∧ ∃ l, u.location = some l ∧ dist l center ≤ radius := by
  have hperm : List.Perm
      (List.insertionSort (distLe dist center)
        (users.filter (hasLocationWithin dist center radius)))
      (users.filter (hasLocationWithin dist center radius)) :=
    List.perm_insertionSort _ _
  have hdef : findNearbyUsers true dist users center radius =
      List.insertionSort (distLe dist center)
        (users.filter (hasLocationWithin dist center radius)) := rfl
  rw [hdef, hperm.mem_iff, List.mem_filter]
  constructor
  · rintro ⟨hu, hw⟩
    refine ⟨hu, ?_⟩
    cases hl : u.location with
    | none => simp [hasLocationWithin, hl] at hw
    | some l =>
        simp only [hasLocationWithin, hl, decide_eq_true_eq] at hw
        exact ⟨l, rfl, hw⟩
  · rintro ⟨hu, l, hl, hle⟩
    exact ⟨hu, by simp [hasLocationWithin, hl, hle]⟩

/-- C5 (amended): a successful `findNearbyUsers` query returns exactly
the users whose stored location is within the radius, sorted ascending
by distance — ties keep the store order rather than being broken by the
recipient identifier — and every returned user has a stored location. -/
theorem findNearbyUsers_characterization (dist : GeoPoint → GeoPoint → ℚ)
    (users : List UserDoc) (center : GeoPoint) (radius : ℚ) :
    (∀ u, u ∈ findNearbyUsers true dist users center radius ↔
        u ∈ users ∧ ∃ l, u.location = some l ∧ dist l center ≤ radius) ∧
    List.Sorted (distLe dist center)
      (findNearbyUsers true dist users center radius) ∧
    (findNearbyUsers true dist users center radius).all
      (fun u => u.location.isSome) = true := by
  refine ⟨mem_findNearbyUsers dist users center radius, ?_, ?_⟩
  · exact List.sorted_insertionSort _ _
  · rw [List.all_eq_true]
    intro u hu
    obtain ⟨-, l, hl, -⟩ :=
      (mem_findNearbyUsers dist users center radius u).mp hu
    simp [hl]

/-- C5 is false as stated: two users at equal distance from the center
come back in store order, not in recipient-identifier order, so the
result is not sorted by the distance-then-identifier order the claim
asserts. -/
theorem near_result_not_id_tiebroken :
    ¬ List.Sorted (specDistIdOrder distFive center0)
      (findNearbyUsers true distFive [userTieB, userTieA] center0 10) := by
  have h : findNearbyUsers true distFive [userTieB, userTieA] center0 10 =
      [userTieB, userTieA] := by decide
  rw [h]
  intro hs
  have hrel : specDistIdOrder distFive center0 userTieB userTieA :=
    List.rel_of_sorted_cons hs userTieA (by simp)
  revert hrel
  decide

/-- Attempted actions of the per-recipient e-mail sender depend only on
the configuration and the recipient, never on the transport outcomes. -/
theorem sendHazardEmailNotification_acts (cfg : Config) (t : Transport)
    (e n : String) (hz : HazardMsg) :
    sendHazardEmailNotification cfg t e n hz =
      NetAct.geocode hz.location ::
        (if present cfg.emailUser && present cfg.emailPassword then
           [NetAct.smtpSend e]
         else []) := by
  cases h1 : present cfg.emailUser <;> cases h2 : present cfg.emailPassword <;>
    cases h3 : t.smtpOk e <;>
      simp [sendHazardEmailNotification, sendEmail, getAddressFromCoordinates,
        sendMailOp, h1, h2, h3]

/-- Attempted actions of the WhatsApp sender depend only on the
configuration and the recipient, never on the transport outcomes. -/
theorem sendHazardWhatsAppNotification_acts (cfg : Config) (t : Transport)
    (p n : String) (hz : HazardMsg) :
    sendHazardWhatsAppNotification cfg t p n hz =
      (if twilioClientPresent cfg && present cfg.twilioWhatsAppNumber then
         [NetAct.geocode hz.location,
          NetAct.twilioSend ("whatsapp:" ++ formatWhatsAppPhone p)]
       else []) := by
  cases h1 : twilioClientPresent cfg <;>
    cases h2 : present cfg.twilioWhatsAppNumber <;>
      cases h3 : t.twilioOk ("whatsapp:" ++ formatWhatsAppPhone p) <;>
        simp [sendHazardWhatsAppNotification, getAddressFromCoordinates,
          twilioCreateOp, h1, h2, h3]

/-- Characterization of all fan-out attempts as a per-recipient function
of the configuration alone. -/
theorem notifyNearbyUsers_acts (cfg : Config) (t : Transport)
    (geoOk : Bool) (dist : GeoPoint → GeoPoint → ℚ) (users : List UserDoc)
    (hz : HazardMsg) (radius : ℚ) :
    (notifyNearbyUsers cfg t geoOk dist users hz radius).acts =
      (findNearbyUsers geoOk dist users hz.location radius).flatMap
        (recipientActs cfg hz) := by
  have hdef : (notifyNearbyUsers cfg t geoOk dist users hz radius).acts =
      (findNearbyUsers geoOk dist users hz.location radius).flatMap fun u =>
        (if present u.email then
           sendHazardEmailNotification cfg t (u.email.getD ("")) u.name hz
         else []) ++
        (if present u.phone then
           sendHazardWhatsAppNotification cfg t (u.phone.getD ("")) u.name hz
         else []) := rfl
  rw [hdef]
  congr 1
  funext u
  rw [sendHazardEmailNotification_acts, sendHazardWhatsAppNotification_acts]
  rfl

/-- C7: channel attempts are isolated and the senders are total: the
attempted network actions of the fan-out are identical under every
transport-outcome oracle (so one failing attempt never suppresses
another recipient or channel), and every nearby user with a configured
channel has that channel attempted. -/
theorem channelAttempts_isolated (cfg : Config) (geoOk : Bool)
    (dist : GeoPoint → GeoPoint → ℚ) (users : List UserDoc)
    (hz : HazardMsg) (radius : ℚ) (t tAlt : Transport) :
    (notifyNearbyUsers cfg t geoOk dist users hz radius).acts =
      (notifyNearbyUsers cfg tAlt geoOk dist users hz radius).acts ∧
    (∀ u, u ∈ findNearbyUsers geoOk dist users hz.location radius →
      (present u.email = true → present cfg.emailUser = true →
        present cfg.emailPassword = true →
        NetAct.smtpSend (u.email.getD ("")) ∈
          (notifyNearbyUsers cfg t geoOk dist users hz radius).acts) ∧
      (present u.phone = true → twilioClientPresent cfg = true →
        present cfg.twilioWhatsAppNumber = true →
        NetAct.twilioSend ("whatsapp:" ++ formatWhatsAppPhone (u.phone.getD (""))) ∈
          (notifyNearbyUsers cfg t geoOk dist users hz radius).acts)) := by
  constructor
  · rw [notifyNearbyUsers_acts, notifyNearbyUsers_acts]
  · intro u hu
    constructor
    · intro he hc1 hc2
      rw [notifyNearbyUsers_acts, List.mem_flatMap]
      exact ⟨u, hu, by simp [recipientActs, he, hc1, hc2]⟩
    · intro hp hc1 hc2
      rw [notifyNearbyUsers_acts, List.mem_flatMap]
      exact ⟨u, hu, by simp [recipientActs, hp, hc1, hc2]⟩

/-- Witness for C7: with a fully configured transport and an SMTP oracle
that fails every e-mail, both channel attempts of the one nearby user
still appear. -/
theorem channelAttempts_isolated_witness :
    (notifyNearbyUsers cfgFull transportMailFails true distFive
        [userInactive] hz0 10).acts =
      (notifyNearbyUsers cfgFull transportAllOk true distFive
        [userInactive] hz0 10).acts ∧
    NetAct.smtpSend (userInactive.email.getD ("")) ∈
      (notifyNearbyUsers cfgFull transportMailFails true distFive
        [userInactive] hz0 10).acts ∧
    NetAct.twilioSend
        ("whatsapp:" ++ formatWhatsAppPhone (userInactive.phone.getD (""))) ∈
      (notifyNearbyUsers cfgFull transportMailFails true distFive
        [userInactive] hz0 10).acts := by
  have h := channelAttempts_isolated cfgFull true distFive [userInactive]
    hz0 10 transportMailFails transportAllOk
  have hu : userInactive ∈ findNearbyUsers true distFive [userInactive]
      hz0.location 10 := by decide
  exact ⟨h.1, (h.2 userInactive hu).1 (by decide) (by decide) (by decide),
    (h.2 userInactive hu).2 (by decide) (by decide) (by decide)⟩

/-- C8: absent configuration short-circuits each channel with no network
action: a missing authority address or missing SMTP credentials yield
`([], false)` for the e-mail senders, and a missing Twilio client or
WhatsApp number makes the WhatsApp sender skip with `[]`. -/
theorem configAbsent_shortCircuits (cfg : Config) (t : Transport)
    (data : AuthorityEmailData) (dest subject html p n : String)
    (hz : HazardMsg) :
    (present cfg.oceanAuthorityEmail = false →
      sendHazardNotificationEmail cfg t data = ([], false)) ∧
    (present cfg.emailUser = false ∨ present cfg.emailPassword = false →
      sendEmail cfg t dest subject html = ([], false) ∧
      sendHazardNotificationEmail cfg t data = ([], false)) ∧
    (twilioClientPresent cfg = false ∨
        present cfg.twilioWhatsAppNumber = false →
      sendHazardWhatsAppNotification cfg t p n hz = []) := by
  refine ⟨?_, ?_, ?_⟩
  · intro h
    simp [sendHazardNotificationEmail, h]
  · intro h
    have h1 : sendEmail cfg t dest subject html = ([], false) := by
      rcases h with h | h <;> simp [sendEmail, h]
    have h2 : sendHazardNotificationEmail cfg t data = ([], false) := by
      cases ha : present cfg.oceanAuthorityEmail <;>
        rcases h with h | h <;>
          simp [sendHazardNotificationEmail, ha, h]
    exact ⟨h1, h2⟩
  · intro h
    rcases h with h | h
    · simp [sendHazardWhatsAppNotification, h]
    · cases hc : twilioClientPresent cfg <;>
        simp [sendHazardWhatsAppNotification, hc, h]

/-- Witness for C8 on the entirely absent configuration. -/
theorem configAbsent_shortCircuits_witness :
    sendHazardNotificationEmail cfgEmpty transportAllOk authData0 =
      ([], false) ∧
    sendEmail cfgEmpty transportAllOk ("x@y") ("s") ("h") = ([], false) ∧
    sendHazardWhatsAppNotification cfgEmpty transportAllOk ("+15550100")
      ("n") hz0 = [] :=
  ⟨(configAbsent_shortCircuits cfgEmpty transportAllOk authData0 ("x@y")
      ("s") ("h") ("+15550100") ("n") hz0).1 rfl,
    ((configAbsent_shortCircuits cfgEmpty transportAllOk authData0 ("x@y")
      ("s") ("h") ("+15550100") ("n") hz0).2.1 (Or.inl rfl)).1,
    (configAbsent_shortCircuits cfgEmpty transportAllOk authData0 ("x@y")
      ("s") ("h") ("+15550100") ("n") hz0).2.2 (Or.inl rfl)⟩

/-- C10: recipient selection ignores the account status: a deactivated
user whose stored location is within the radius is still returned by
the geospatial query and still receives the e-mail and WhatsApp
dispatch attempts (when those channels are configured). -/
theorem inactiveUser_still_notified (cfg : Config) (t : Transport)
    (dist : GeoPoint → GeoPoint → ℚ) (users : List UserDoc)
    (hz : HazardMsg) (radius : ℚ) (u : UserDoc) (l : GeoPoint)
    (hmem : u ∈ users) (hact : u.isActive = false)
    (hl : u.location = some l) (hle : dist l hz.location ≤ radius) :
    u ∈ findNearbyUsers true dist users hz.location radius ∧
    (present u.email = true → present cfg.emailUser = true →
      present cfg.emailPassword = true →
      NetAct.smtpSend (u.email.getD ("")) ∈
        (notifyNearbyUsers cfg t true dist users hz radius).acts) ∧
    (present u.phone = true → twilioClientPresent cfg = true →
      present cfg.twilioWhatsAppNumber = true →
      NetAct.twilioSend ("whatsapp:" ++ formatWhatsAppPhone (u.phone.getD (""))) ∈
        (notifyNearbyUsers cfg t true dist users hz radius).acts) := by
  have hin : u ∈ findNearbyUsers true dist users hz.location radius :=
    (mem_findNearbyUsers dist users hz.location radius u).mpr
      ⟨hmem, l, hl, hle⟩
  refine ⟨hin, ?_, ?_⟩
  · intro he hc1 hc2
    rw [notifyNearbyUsers_acts, List.mem_flatMap]
    exact ⟨u, hin, by simp [recipientActs, he, hc1, hc2]⟩
  · intro hp hc1 hc2
    rw [notifyNearbyUsers_acts, List.mem_flatMap]
    exact ⟨u, hin, by simp [recipientActs, hp, hc1, hc2]⟩

/-- Witness for C10: the deactivated user is selected and both dispatch
attempts appear. -/
theorem inactiveUser_still_notified_witness :
    userInactive ∈
      findNearbyUsers true distFive [userInactive] hz0.location 10 ∧
    NetAct.smtpSend (userInactive.email.getD ("")) ∈
      (notifyNearbyUsers cfgFull transportAllOk true distFive
        [userInactive] hz0 10).acts ∧
    NetAct.twilioSend
        ("whatsapp:" ++ formatWhatsAppPhone (userInactive.phone.getD (""))) ∈
      (notifyNearbyUsers cfgFull transportAllOk true distFive
        [userInactive] hz0 10).acts := by
  have h := inactiveUser_still_notified cfgFull transportAllOk distFive
    [userInactive] hz0 10 userInactive ⟨10, 20⟩ (by decide) rfl rfl
    (by decide)
  exact ⟨h.1, h.2.1 (by decide) (by decide) (by decide),
    h.2.2 (by decide) (by decide) (by decide)⟩

end Ocean
